import Mathlib

/-!
Shallow embedding of the ERA5Land repository's analysis core, and proofs
about it.  Numeric (float) values are modelled as rationals, pandas
null values (NaN / NaT) as `Option`, and Python exceptions as `Except`
or `Option` results.  Each definition is translated from the named
source function; the two definitions marked `Modelled from the spec:`
correspond to repository functions imported by `era5_csv_page.py` from
`era5_daily_analysis` but absent from the provided sources.
-/

namespace ERA5Land

/-! ## Calendar basics (reference for `datetime.date` / `pandas` dates) -/

/-- Gregorian leap-year test, as used by Python's `datetime`/`pandas`. -/
def isLeap (y : Nat) : Bool :=
  (y % 4 == 0 && y % 100 != 0) || y % 400 == 0

/-- Number of days in a month of year `y` (0 for an invalid month). -/
def daysInMonth (y m : Nat) : Nat :=
  if m = 1 ∨ m = 3 ∨ m = 5 ∨ m = 7 ∨ m = 8 ∨ m = 10 ∨ m = 12 then 31
  else if m = 4 ∨ m = 6 ∨ m = 9 ∨ m = 11 then 30
  else if m = 2 then (if isLeap y then 29 else 28)
  else 0

/-- Whether `(y, m, d)` is a valid calendar date: exactly the condition
under which `datetime.date(y, m, d)` does not raise `ValueError`. -/
def validDate (y m d : Nat) : Bool :=
  1 ≤ m && m ≤ 12 && 1 ≤ d && d ≤ daysInMonth y m

/-- Day-of-year of `(y, m, d)`: days of all earlier months plus `d`
(`timetuple().tm_yday` / `Series.dt.dayofyear`). -/
def doyOf (y m d : Nat) : Nat :=
  (List.range (m - 1)).foldl (fun acc i => acc + daysInMonth y (i + 1)) 0 + d

/-- A calendar date as carried by a parsed `date` column entry. -/
structure Date where
  year : Nat
  month : Nat
  day : Nat
deriving DecidableEq

instance : Inhabited Date := ⟨⟨1, 1, 1⟩⟩

/-! ## `Era5Land.py`: `compute_doy`

Source (`src/Era5Land.py` lines 19-25): build `datetime.date(2001, month, day)`
and return its `tm_yday`; on `ValueError` return `None`.  2001 is a
non-leap reference year. -/

def compute_doy (month day : Nat) : Option Nat :=
  if validDate 2001 month day then some (doyOf 2001 month day) else none

/-! ## Data-frame model

A loaded ERA5 daily table: a set of column names plus one row per day.
A row carries its parsed `date` and a lookup from column name to value;
`none` models a NaN cell (pandas comparisons with NaN are false, which
the functions below reproduce).  Columns listed in `cols` are the ones
present in the frame; `vals` is only consulted for those. -/

structure ARow where
  date : Date
  vals : String → Option ℚ

/-- A daily data frame: present columns and the rows. -/
structure AFrame where
  cols : List String
  rows : List ARow

instance : Inhabited ARow := ⟨⟨default, fun _ => none⟩⟩

/-- Sort key: strictly monotone in (year, month, day) for calendar dates
(month ≤ 12, day ≤ 31), so sorting by it is chronological order. -/
def dateOrd (d : Date) : Nat :=
  (d.year * 13 + d.month) * 32 + d.day

/-- Row comparison used by `df.sort_values("date")`. -/
def rowLe (a b : ARow) : Prop := dateOrd a.date ≤ dateOrd b.date

instance : DecidableRel rowLe := fun a b => Nat.decLe (dateOrd a.date) (dateOrd b.date)

instance : IsTotal ARow rowLe := ⟨fun a b => Nat.le_total (dateOrd a.date) (dateOrd b.date)⟩

instance : IsTrans ARow rowLe := ⟨fun _ _ _ hab hbc => Nat.le_trans hab hbc⟩

/-- Embedding of `df.sort_values("date").reset_index(drop=True)`. -/
def sortByDate (rows : List ARow) : List ARow :=
  List.insertionSort rowLe rows

/-! ## `era5_daily_analysis.py`: `count_extreme_events` -/

/-- One entry of the `thresholds` dict: optional `lt` / `gt` bounds. -/
structure Cond where
  lt : Option ℚ
  gt : Option ℚ

/-- The per-row mask of `count_extreme_events`: starts `True`, is
conjoined with `series < lt` and/or `series > gt` when those bounds are
given.  A NaN cell (`none`) fails any comparison, as in pandas. -/
def condHolds (c : Cond) (v : Option ℚ) : Bool :=
  (match c.lt with
   | none => true
   | some l => match v with
     | some x => decide (x < l)
     | none => false) &&
  (match c.gt with
   | none => true
   | some g => match v with
     | some x => decide (g < x)
     | none => false)

/-- Smallest date of a list under the sort key (`Series.min`). -/
def minDate : List Date → Option Date
  | [] => none
  | d :: ds => some (ds.foldl (fun a b => if dateOrd b < dateOrd a then b else a) d)

/-- Largest date of a list under the sort key (`Series.max`). -/
def maxDate : List Date → Option Date
  | [] => none
  | d :: ds => some (ds.foldl (fun a b => if dateOrd a < dateOrd b then b else a) d)

/-- One result row of `count_extreme_events`. -/
structure ExtremeRow where
  varName : String
  n_days : Nat
  first_date : Option Date
  last_date : Option Date
deriving DecidableEq

/-- Source (`src/era5_daily_analysis.py` lines 186-232): for each
`(variable, condition)` pair, skip it when the column is absent
(`continue`), otherwise count the days satisfying the condition and
record the first/last matching dates (`None` when no day matches). -/
def count_extreme_events (df : AFrame) (thresholds : List (String × Cond)) :
    List ExtremeRow :=
  thresholds.filterMap (fun vc =>
    if vc.1 ∈ df.cols then
      let mask := df.rows.map (fun r => condHolds vc.2 (r.vals vc.1))
      let n := mask.count true
      let dates := ((df.rows.zip mask).filterMap
        (fun rb => if rb.2 then some rb.1.date else none))
      some { varName := vc.1, n_days := n,
             first_date := if 0 < n then minDate dates else none,
             last_date := if 0 < n then maxDate dates else none }
    else none)

/-! ## `era5_daily_analysis.py`: `frost_stats` -/

/-- Result of `frost_stats`. -/
structure FrostOut where
  tmin_col : String
  threshold_C : ℚ
  n_frost_days : Nat
  first_frost_date : Option Date
  last_frost_date : Option Date
deriving DecidableEq

/-- Source (`src/era5_daily_analysis.py` lines 239-261): raise
`ValueError` when the `tmin` column is absent; otherwise count days with
`tmin < threshold_C` (strict, NaN fails) and report first/last dates. -/
def frost_stats (df : AFrame) (tmin_col : String) (threshold_C : ℚ) :
    Except String FrostOut :=
  if tmin_col ∈ df.cols then
    let mask := df.rows.map (fun r =>
      match r.vals tmin_col with
      | some x => decide (x < threshold_C)
      | none => false)
    let n := mask.count true
    let dates := ((df.rows.zip mask).filterMap
      (fun rb => if rb.2 then some rb.1.date else none))
    Except.ok { tmin_col := tmin_col, threshold_C := threshold_C,
                n_frost_days := n,
                first_frost_date := if 0 < n then minDate dates else none,
                last_frost_date := if 0 < n then maxDate dates else none }
  else Except.error (s!"Coluna {tmin_col} não existe no DataFrame.")

/-! ## `era5_daily_analysis.py`: `heavy_rain_events` -/

/-- Heavy-day test `rain >= threshold_mm`; a NaN precipitation cell
compares false, as in pandas. -/
def isHeavyAt (threshold : ℚ) (v : Option ℚ) : Bool :=
  match v with
  | some x => decide (threshold ≤ x)
  | none => false

/-- One reported event of `heavy_rain_events`. -/
structure EventSpan where
  start_date : Date
  end_date : Date
  length_days : Nat
deriving DecidableEq

/-- Result of `heavy_rain_events`. -/
structure RainOut where
  threshold_mm : ℚ
  min_consec_days : Nat
  n_events : Nat
  events : List EventSpan
deriving DecidableEq

/-- The event-scanning loop of `heavy_rain_events` (source lines
288-317), carrying the loop state explicitly: `i` is the enumeration
index, the `Option Nat` is `start_idx` when `in_event` is true.  A
closed event is kept when its length `end_idx - start_idx + 1 = i -
start_idx` reaches `min_consec_days`; a run still open at the end of
the list is closed at index `length - 1`.  Events are reported as
`(start_idx, end_idx)` index pairs into the sorted frame. -/
def eventLoop (k : Nat) : Nat → Option Nat → List Bool → List (Nat × Nat)
  | _, none, [] => []
  | i, some s, [] => if k ≤ i - s then [(s, i - 1)] else []
  | i, none, true :: rest => eventLoop k (i + 1) (some i) rest
  | i, none, false :: rest => eventLoop k (i + 1) none rest
  | i, some s, true :: rest => eventLoop k (i + 1) (some s) rest
  | i, some s, false :: rest =>
      (if k ≤ i - s then [(s, i - 1)] else []) ++ eventLoop k (i + 1) none rest

/-- The dates and length reported for an index-pair event: the code
stores `dates.iloc[start_idx]`, `dates.iloc[end_idx]` and
`end_idx - start_idx + 1` for each pair produced by the loop. -/
def spanOf (sorted : List ARow) (p : Nat × Nat) : EventSpan :=
  { start_date := (sorted.getD p.1 default).date,
    end_date := (sorted.getD p.2 default).date,
    length_days := p.2 - p.1 + 1 }

/-- Source (`src/era5_daily_analysis.py` lines 264-325): raise
`ValueError` when the precipitation column is absent; otherwise sort by
date, flag days with `precip >= threshold_mm`, and scan for maximal
consecutive flagged stretches of length at least `min_consec_days`. -/
def heavy_rain_events (df : AFrame) (precip_col : String) (threshold_mm : ℚ)
    (min_consec_days : Nat) : Except String RainOut :=
  if precip_col ∈ df.cols then
    let sorted := sortByDate df.rows
    let is_heavy := sorted.map (fun r => isHeavyAt threshold_mm (r.vals precip_col))
    let events := (eventLoop min_consec_days 0 none is_heavy).map (spanOf sorted)
    Except.ok { threshold_mm := threshold_mm, min_consec_days := min_consec_days,
                n_events := events.length, events := events }
  else Except.error (s!"Coluna {precip_col} não existe no DataFrame.")

/-! ## `era5_report.py`: `_safe_stats` and `build_event_stats_for_report` -/

/-- The min/max/mean triple of `_safe_stats`; each entry is `none` when
the (nonempty) series holds no non-NaN value, since pandas reductions
skip NaN and reduce to NaN on an all-NaN series. -/
structure Stats3 where
  min : Option ℚ
  max : Option ℚ
  mean : Option ℚ
deriving DecidableEq

/-- Minimum of the non-NaN cells of a series (`Series.min`, skipna). -/
def seriesMin (l : List (Option ℚ)) : Option ℚ :=
  match l.reduceOption with
  | [] => none
  | x :: xs => some (xs.foldl (fun a b => if b < a then b else a) x)

/-- Maximum of the non-NaN cells of a series (`Series.max`, skipna). -/
def seriesMax (l : List (Option ℚ)) : Option ℚ :=
  match l.reduceOption with
  | [] => none
  | x :: xs => some (xs.foldl (fun a b => if a < b then b else a) x)

/-- Mean of the non-NaN cells of a series (`Series.mean`, skipna). -/
def seriesMean (l : List (Option ℚ)) : Option ℚ :=
  match l.reduceOption with
  | [] => none
  | x :: xs => some ((x :: xs).sum / ((x :: xs).length : ℚ))

/-- Source (`src/era5_report.py` lines 132-140): an empty series yields
the all-`None` dict (modelled as `none`), otherwise min/max/mean. -/
def safe_stats (l : List (Option ℚ)) : Option Stats3 :=
  match l with
  | [] => none
  | _ => some { min := seriesMin l, max := seriesMax l, mean := seriesMean l }

/-- The per-event stats dict built by `build_event_stats_for_report`.
Each column entry is `none` when the column is absent from the frame
(the Python `if col in sub else None`), and `some none` when the column
is present but the masked sub-frame is empty. -/
structure EventStats where
  days : Nat
  prob_pct : ℚ
  precip_mm : Option (Option Stats3)
  tmin_C : Option (Option Stats3)
  tmax_C : Option (Option Stats3)
  tmean_C : Option (Option Stats3)
  dew2m_mean_C : Option (Option Stats3)
  wind_mean_ms : Option (Option Stats3)
  gust_max_ms : Option (Option Stats3)
deriving DecidableEq

/-- Rows of the frame selected by a boolean mask (`df[mask]`). -/
def selectRows (rows : List ARow) (mask : List Bool) : List ARow :=
  (rows.zip mask).filterMap (fun rb => if rb.2 then some rb.1 else none)

/-- The `_safe_stats(sub[col]) if col in sub else None` pattern. -/
def colStats (df : AFrame) (sub : List ARow) (c : String) : Option (Option Stats3) :=
  if c ∈ df.cols then some (safe_stats (sub.map (fun r => r.vals c))) else none

/-- Number of event days of one mask: `mask.sum()`, 0 for `None`. -/
def daysOf (mo : Option (List Bool)) : Nat :=
  match mo with
  | none => 0
  | some m => m.count true

/-- The masked sub-frame: `df[mask]`, empty for a `None` mask. -/
def subOf (rows : List ARow) (mo : Option (List Bool)) : List ARow :=
  match mo with
  | none => []
  | some m => selectRows rows m

/-- The stats dict built for one event inside the
`build_event_stats_for_report` loop (source lines 158-179). -/
def eventStatsFor (df : AFrame) (mo : Option (List Bool)) : EventStats :=
  let days := daysOf mo
  let prob : ℚ :=
    if 0 < df.rows.length then 100 * (days : ℚ) / (df.rows.length : ℚ) else 0
  let sub := subOf df.rows mo
  { days := days, prob_pct := prob,
    precip_mm := colStats df sub ("precip_mm"),
    tmin_C := colStats df sub ("tmin_C"),
    tmax_C := colStats df sub ("tmax_C"),
    tmean_C := colStats df sub ("tmean_C"),
    dew2m_mean_C := colStats df sub ("dew2m_mean_C"),
    wind_mean_ms := colStats df sub ("wind_mean_ms"),
    gust_max_ms := colStats df sub ("gust_max_ms") }

/-- Source (`src/era5_report.py` lines 143-181): with an empty frame the
result dict is returned empty at once; otherwise one entry per mask,
with `days = mask.sum()` (0 for a `None` mask), the percentage
`100 * days / total_days`, and `_safe_stats` of each known column over
the masked sub-frame. -/
def build_event_stats_for_report (df : AFrame)
    (masks : List (String × Option (List Bool))) : List (String × EventStats) :=
  if df.rows.length = 0 then []
  else masks.map (fun km => (km.1, eventStatsFor df km.2))

/-! ## `era5_report.py`: `_yearly_counts` -/

/-- Smallest year among the frame's dates (`years.min()`); 0 stands in
for the NaN of an empty frame. -/
def minYear (df : AFrame) : Nat :=
  match df.rows.map (fun r => r.date.year) with
  | [] => 0
  | y :: ys => ys.foldl Nat.min y

/-- Largest year among the frame's dates (`years.max()`); 0 stands in
for the NaN of an empty frame. -/
def maxYear (df : AFrame) : Nat :=
  match df.rows.map (fun r => r.date.year) with
  | [] => 0
  | y :: ys => ys.foldl Nat.max y

/-- Number of masked rows falling in year `yr`
(`tmp_years.value_counts()` at `yr`, 0 when absent or for a `None`
mask). -/
def yearCount (df : AFrame) (mask : Option (List Bool)) (yr : Nat) : Nat :=
  match mask with
  | none => 0
  | some m => ((df.rows.zip m).filter
      (fun rb => rb.2 && rb.1.date.year == yr)).length

/-- Source (`src/era5_report.py` lines 224-239): without a `date` column
an empty frame is returned; otherwise the years axis is
`np.arange(years.min(), years.max() + 1)` and each year gets the count
of masked rows falling in it (`value_counts().reindex(all_years,
fill_value=0)`), all zeros for a `None` mask.  The empty-rows branch is
returned empty here; on an empty frame the source would propagate NaN
bounds into `np.arange`, a float corner outside this embedding, and
every statement below assumes at least one row. -/
def yearly_counts (df : AFrame) (mask : Option (List Bool)) : List (Nat × Nat) :=
  if "date" ∈ df.cols then
    if df.rows.isEmpty then []
    else
      (List.range' (minYear df) (maxYear df + 1 - minYear df)).map
        (fun yr => (yr, yearCount df mask yr))
  else []

/-! ## `era5_daily_analysis.py`: date coercion in `load_era5_daily_from_gee`

The loader parses the CSV body, then runs
`df["date"] = pd.to_datetime(df["date"], errors="coerce")` (line 118).
The lexical side of `to_datetime` is abstracted: a raw cell either
lexes as a year-month-day triple or does not. -/

/-- A raw `date` cell as lexed from the CSV. -/
inductive DateCell where
  | ymd (y m d : Nat)
  | unparseable
deriving DecidableEq

/-- A CSV body row before date coercion; `payload` stands for the other
columns, which the coercion step carries through untouched. -/
structure RawRow where
  dateCell : DateCell
  payload : Nat
deriving DecidableEq

/-- A row after date coercion; `none` is a NaT date. -/
structure LoadedRow where
  date : Option Date
  payload : Nat
deriving DecidableEq

/-- `pd.to_datetime(cell, errors="coerce")`: a valid calendar date
parses, anything else coerces to NaT (`none`), never to a substitute. -/
def to_datetime_coerce : DateCell → Option Date
  | DateCell.ymd y m d => if validDate y m d then some ⟨y, m, d⟩ else none
  | DateCell.unparseable => none

/-- The date-coercion step of `load_era5_daily_from_gee` (line 118): a
plain column map; no row is dropped. -/
def coerce_date_column (rows : List RawRow) : List LoadedRow :=
  rows.map (fun r => { date := to_datetime_coerce r.dateCell, payload := r.payload })

/-! ## `daily_generator.py`: `_parse_locations` and `build_gee_code_daily`

Text is handled at the character-list level (a string is its list of
characters; the locations text is its list of lines), so that the
embedded operations mirror Python's `strip`/`split`/`replace`/`float`
structurally. -/

/-- Whitespace as stripped by Python's `str.strip()` (the common
characters; the exotic unicode spaces are outside the model). -/
def isSpaceChar (c : Char) : Bool :=
  c = ' ' || c = '\t' || c = '\n' || c = '\x0d'

/-- Python `str.strip()`: drop whitespace from both ends. -/
def trimChars (cs : List Char) : List Char :=
  ((cs.dropWhile isSpaceChar).reverse.dropWhile isSpaceChar).reverse

/-- Python `str.split(sep)` for a one-character separator: the list of
(possibly empty) chunks between occurrences of `sep`. -/
def splitOnChar (sep : Char) (cs : List Char) : List (List Char) :=
  cs.foldr (fun c acc =>
    match acc with
    | [] => [[c]]
    | a :: rest => if c = sep then [] :: a :: rest else (c :: a) :: rest) [[]]

/-- Python `str.replace(a, b)` for one-character pattern and
replacement. -/
def replaceChar (a b : Char) (cs : List Char) : List Char :=
  cs.map (fun c => if c = a then b else c)

/-- Value of a decimal digit character. -/
def digitVal (c : Char) : Option Nat :=
  if c.isDigit then some (c.toNat - 48) else none

/-- Value of an all-digit string of characters (empty gives 0). -/
def digitsVal (cs : List Char) : Option Nat :=
  cs.foldl (fun acc c =>
    match acc, digitVal c with
    | some a, some d => some (a * 10 + d)
    | _, _ => none) (some 0)

/-- Model of Python's `float` on plain decimal literals: an optional
sign, then digits with at most one decimal point and at least one digit
overall.  Exponents, `inf`/`nan` words and digit-grouping underscores
are outside the modelled subset; on it, acceptance and value agree with
`float`. -/
def pyFloat? (cs : List Char) : Option ℚ :=
  let signed : Bool × List Char :=
    match cs with
    | '-' :: t => (true, t)
    | '+' :: t => (false, t)
    | t => (false, t)
  let val : Option ℚ :=
    match splitOnChar '.' signed.2 with
    | [ip] =>
        if ip.isEmpty then none
        else (digitsVal ip).map (fun a => (a : ℚ))
    | [ip, fp] =>
        if ip.isEmpty && fp.isEmpty then none
        else
          match digitsVal ip, digitsVal fp with
          | some a, some b => some ((a : ℚ) + (b : ℚ) / ((10 : ℚ) ^ fp.length))
          | _, _ => none
    | _ => none
  val.map (fun v => if signed.1 then -v else v)

/-- A parsed location. -/
structure Loc where
  name : List Char
  lon : ℚ
  lat : ℚ
deriving DecidableEq

/-- The per-line body of the `_parse_locations` loop (source lines
34-52): strip the line, skip it when blank, split on commas and strip
the parts, require exactly three, turn decimal commas into points and
parse both coordinates; any failure skips the line (`continue`). -/
def parseLocLine (line : List Char) : Option Loc :=
  let t := trimChars line
  if t = [] then none
  else
    match (splitOnChar ',' t).map trimChars with
    | [name, lonStr, latStr] =>
        match pyFloat? (replaceChar ',' '.' lonStr),
              pyFloat? (replaceChar ',' '.' latStr) with
        | some lon, some lat => some { name := name, lon := lon, lat := lat }
        | _, _ => none
    | _ => none

/-- Source (`src/daily_generator.py` lines 21-54): the accumulation loop
over the lines of the locations text (`splitlines` is modelled by
taking the text as its list of lines). -/
def parse_locations : List (List Char) → List Loc
  | [] => []
  | line :: rest =>
    match parseLocLine line with
    | some l => l :: parse_locations rest
    | none => parse_locations rest

/-- The exact no-valid-location message of `build_gee_code_daily`
(source lines 80-84). -/
def erroMsg : String :=
  "// ERRO: nenhuma localização válida encontrada.\n" ++
  "// Formato esperado (uma por linha): Nome, lon, lat\n" ++
  "// Exemplo: Futrono, -72.4, -40.15"

/-- Header lines of the generated script (source lines 91-103). -/
def headerLines (sy ey sm sd em ed : Int) : List String :=
  ["// -------------------------------------------------------------",
   "// ERA5-Land + ERA5 – Séries DIÁRIAS por localização",
   "// Código gerado automaticamente pela app ERA5Land",
   "// -------------------------------------------------------------",
   "",
   s!"var startYear = {sy};",
   s!"var endYear   = {ey};",
   "",
   s!"var startMonth = {sm};",
   s!"var startDay   = {sd};",
   s!"var endMonth   = {em};",
   s!"var endDay     = {ed};",
   ""]

/-- Python's `name.replace("'", "\\'")`: escape apostrophes. -/
def escapeQuote (cs : List Char) : List Char :=
  cs.foldr (fun c acc => if c = '\'' then '\\' :: c :: acc else c :: acc) []

/-- One JavaScript locations-array entry (source lines 111-117), with
apostrophes in the name escaped. -/
def locEntry (loc : Loc) : String :=
  let q := String.singleton '\''
  let name := String.mk (escapeQuote loc.name)
  let lon := loc.lon
  let lat := loc.lat
  s!"  \x7bname: {q}{name}{q}, lon: {lon}, lat: {lat}\x7d"

/-- The entries joined with separating commas, none after the last
(source lines 119-124). -/
def locEntryLines (locs : List Loc) : List String :=
  let entries := locs.map locEntry
  entries.enum.map (fun ie =>
    if ie.1 + 1 < entries.length then ie.2 ++ "," else ie.2)

/-- Fixed JavaScript template appended by `build_gee_code_daily` (source
lines 132-325).  The spec scopes the generated script's text out of the
core ("pure, stateless text-templating", consumed only by the external
platform), and no claim inspects it, so the template constant is
abridged to its first line here. -/
def dailyBodyJs : String :=
  "// ===== FUNÇÕES BÁSICAS =====\n"

/-- Source (`src/daily_generator.py` lines 57-84 and onward): parse the
locations text; with no valid location return the error message string
(never raise), otherwise emit the script: header, locations array and
the fixed template body, newline-joined. -/
def build_gee_code_daily (sy ey sm sd em ed : Int)
    (textLines : List (List Char)) : String :=
  let locations := parse_locations textLines
  match locations with
  | [] => erroMsg
  | _ =>
    String.intercalate ("\n")
      (headerLines sy ey sm sd em ed ++
       ["var locations = ["] ++ locEntryLines locations ++ ["];", ""] ++
       [dailyBodyJs])

/-! ## Spec-modelled definitions

`era5_csv_page.py` imports `apply_seasonal_window` and
`compute_event_masks` from `era5_daily_analysis`, but the provided copy
of that module does not contain them; the two definitions below are
reconstructed from the spec's contracts. -/

/-- A dated record as seen by the seasonal filter; `payload` stands for
the climate columns, which the filter carries through untouched. -/
structure SRec where
  date : Date
  payload : Nat
deriving DecidableEq

/-- Day-of-year of a record's own date (`Series.dt.dayofyear`, which is
leap-aware for the record's actual year). -/
def recDoy (r : SRec) : Nat :=
  doyOf r.date.year r.date.month r.date.day

/-- Modelled from the spec: `apply_seasonal_window`, the seasonal filter
imported by `era5_csv_page.py` but absent from the provided
`era5_daily_analysis.py`.  Spec §4.2: the window endpoints go through
`compute_doy` (an invalid endpoint is the `InvalidDateError` case,
modelled as `none`); a WITHIN_YEAR window (`start_doy ≤ end_doy`) keeps
records with `start_doy ≤ doy ≤ end_doy`, a WRAPS_YEAR window
(`start_doy > end_doy`) keeps records with `doy ≥ start_doy` OR
`doy ≤ end_doy`, across all years. -/
def apply_seasonal_window (records : List SRec) (sm sd em ed : Nat) :
    Option (List SRec) :=
  match compute_doy sm sd, compute_doy em ed with
  | some s, some e =>
      if e < s then
        some (records.filter (fun r => decide (s ≤ recDoy r ∨ recDoy r ≤ e)))
      else
        some (records.filter (fun r => decide (s ≤ recDoy r ∧ recDoy r ≤ e)))
  | _, _ => none

/-- The per-event thresholds, as passed by `era5_csv_page.py` (lines
181-190). -/
structure EventParams where
  frost_temp_C : ℚ
  frost_max_wind_ms : ℚ
  frost_max_dew_delta_C : ℚ
  rain_threshold_mm : ℚ
  heavy_rain_threshold_mm : ℚ
  heat_threshold_C : ℚ
  wind_gust_threshold_ms : ℚ

/-- The frost predicate of spec §4.4 applied to one row: all three
fields must be non-NaN and satisfy
`tmin_C ≤ frost_temp_C ∧ wind_mean_ms ≤ frost_max_wind_ms ∧
|tmin_C - dew2m_mean_C| ≤ frost_max_dew_delta_C`. -/
def frostMaskRow (p : EventParams) (r : ARow) : Bool :=
  match r.vals ("tmin_C"), r.vals ("dew2m_mean_C"), r.vals ("wind_mean_ms") with
  | some tn, some dw, some wd =>
      decide (tn ≤ p.frost_temp_C) && decide (wd ≤ p.frost_max_wind_ms) &&
      decide (|tn - dw| ≤ p.frost_max_dew_delta_C)
  | _, _, _ => false

/-- A one-column threshold mask `value ≥ t` (NaN fails). -/
def geMaskRow (c : String) (t : ℚ) (r : ARow) : Bool :=
  match r.vals c with
  | some x => decide (t ≤ x)
  | none => false

/-- Modelled from the spec: `compute_event_masks`, the event detector
imported by `era5_csv_page.py` but absent from the provided
`era5_daily_analysis.py`.  Spec §4.3-§4.4: each catalog event gets a
mask only when all its required columns are present; otherwise its key
is omitted. -/
def compute_event_masks (df : AFrame) (p : EventParams) :
    List (String × List Bool) :=
  (if "tmin_C" ∈ df.cols ∧ "dew2m_mean_C" ∈ df.cols ∧ "wind_mean_ms" ∈ df.cols
   then [("frost", df.rows.map (frostMaskRow p))] else []) ++
  (if "precip_mm" ∈ df.cols
   then [("rain_day", df.rows.map (geMaskRow ("precip_mm") p.rain_threshold_mm)),
         ("heavy_rain", df.rows.map (geMaskRow ("precip_mm") p.heavy_rain_threshold_mm))]
   else []) ++
  (if "tmax_C" ∈ df.cols
   then [("heat", df.rows.map (geMaskRow ("tmax_C") p.heat_threshold_C))] else []) ++
  (if "gust_max_ms" ∈ df.cols
   then [("strong_wind", df.rows.map (geMaskRow ("gust_max_ms") p.wind_gust_threshold_ms))]
   else [])

/-! ## Concrete evaluation fixtures

Small concrete frames and inputs on which the theorems below are
instantiated and evaluated. -/

/-- A record row with every climate cell NaN, for a given date. -/
def bareRow (y m d : Nat) : ARow :=
  ⟨⟨y, m, d⟩, fun _ => none⟩

/-- A row carrying the frost-relevant cells of spec scenario C
(`tmin_C = -1`, `dew2m_mean_C = -2`, `wind_mean_ms = 2`). -/
def rowC2 : ARow :=
  ⟨⟨2021, 7, 1⟩, fun c =>
    if c = "tmin_C" then some (-1)
    else if c = "dew2m_mean_C" then some (-2)
    else if c = "wind_mean_ms" then some 2
    else none⟩

/-- A one-row frame carrying the three frost columns. -/
def dfC2 : AFrame :=
  ⟨["date", "tmin_C", "dew2m_mean_C", "wind_mean_ms"], [rowC2]⟩

/-- Event thresholds with the spec scenario C frost triple (0, 3, 2). -/
def paramsC2 : EventParams :=
  ⟨0, 3, 2, 1, 20, 35, 20⟩

/-- Three dated records around a wrapping November-February window. -/
def recsC1 : List SRec :=
  [⟨⟨2020, 12, 1⟩, 0⟩, ⟨⟨2021, 2, 10⟩, 1⟩, ⟨⟨2021, 7, 1⟩, 2⟩]

/-- A loaded body with one well-formed and one unparseable date. -/
def rawRowsC3 : List RawRow :=
  [⟨DateCell.ymd 2021 2 10, 1⟩, ⟨DateCell.unparseable, 2⟩]

/-- A one-row body whose date does not parse. -/
def rawBadC3 : List RawRow :=
  [⟨DateCell.unparseable, 7⟩]

/-- A frame with only the `date` column (and no rows). -/
def dfDateOnly : AFrame :=
  ⟨["date"], []⟩

/-- The extreme-events request of the module docstring example. -/
def thrC4 : List (String × Cond) :=
  [("tmin_C", ⟨some 0, none⟩), ("precip_mm", ⟨none, some 20⟩)]

/-- A one-row frame with only the `date` column. -/
def dfC5 : AFrame :=
  ⟨["date"], [bareRow 2020 1 1]⟩

/-- A mask mapping whose only event carries a `None` mask. -/
def masksC5 : List (String × Option (List Bool)) :=
  [("frost", none)]

/-- The stats dict `build_event_stats_for_report` produces on `dfC5`
for a `None` mask: zero days and probability, no known stat column. -/
def stC5 : EventStats :=
  ⟨0, 0, none, none, none, none, none, none, none⟩

/-- An empty frame that still declares an event-relevant column. -/
def dfC6 : AFrame :=
  ⟨["date", "tmin_C"], []⟩

/-- A mask mapping offered to the report over the empty frame. -/
def masksC6 : List (String × Option (List Bool)) :=
  [("frost", some [])]

/-- A two-row frame spanning 2020-2021. -/
def dfC7 : AFrame :=
  ⟨["date"], [bareRow 2020 6 1, bareRow 2021 6 1]⟩

/-- A mask marking only the 2020 row. -/
def maskC7 : Option (List Bool) :=
  some [true, false]

/-- A four-day frame with precipitation 25, 0, 30, 30 (dates given out
of order, so sorting matters). -/
def dfC9 : AFrame :=
  ⟨["date", "precip_mm"],
   [⟨⟨2020, 1, 2⟩, fun c => if c = "precip_mm" then some 0 else none⟩,
    ⟨⟨2020, 1, 1⟩, fun c => if c = "precip_mm" then some 25 else none⟩,
    ⟨⟨2020, 1, 3⟩, fun c => if c = "precip_mm" then some 30 else none⟩,
    ⟨⟨2020, 1, 4⟩, fun c => if c = "precip_mm" then some 30 else none⟩]⟩

/-! ## Maximal runs of a boolean sequence

`trueRuns` is the specification-side description of what the
`heavy_rain_events` loop computes: the claim speaks of maximal runs of
consecutive heavy positions, so the definition below follows those
words rather than the loop. -/

/-- Maximal runs of `true` in a boolean sequence, indexed from `i`:
each run is reported as its (first index, last index) pair, and runs
are maximal (each is preceded and followed by `false` or a sequence
end).  This follows the claim's words, for comparison with the scan
loop of `heavy_rain_events`. -/
def trueRuns : Nat → List Bool → List (Nat × Nat)
  | _, [] => []
  | i, false :: rest => trueRuns (i + 1) rest
  | i, true :: rest =>
      (i, i + (rest.takeWhile (fun b => b)).length) ::
        trueRuns (i + (rest.takeWhile (fun b => b)).length + 1)
          (rest.dropWhile (fun b => b))
termination_by _ l => l.length
decreasing_by
  · simp
  · simp only [List.length_cons]
    exact Nat.lt_succ_of_le (List.dropWhile_sublist (fun b => b)).length_le

/-- Behaviour of the scan loop from inside a run: the run that started
at `s` extends over the leading `true` stretch, is emitted if long
enough, and scanning resumes in the not-in-event state after it. -/
theorem eventLoop_some (k : Nat) (rest : List Bool) : ∀ i s : Nat, s < i →
    eventLoop k i (some s) rest =
      (if k ≤ i + (rest.takeWhile (fun b => b)).length - s
       then [(s, i + (rest.takeWhile (fun b => b)).length - 1)] else []) ++
      eventLoop k (i + (rest.takeWhile (fun b => b)).length) none
        (rest.dropWhile (fun b => b)) := by
  induction rest with
  | nil =>
    intro i s _
    simp [eventLoop]
  | cons b t ih =>
    intro i s hsi
    cases b with
    | true =>
      have h1 : eventLoop k i (some s) (true :: t) = eventLoop k (i + 1) (some s) t := rfl
      rw [h1, ih (i + 1) s (Nat.lt_succ_of_lt hsi)]
      have h2 : i + 1 + (t.takeWhile (fun b => b)).length
          = i + ((t.takeWhile (fun b => b)).length + 1) := by omega
      simp [List.takeWhile_cons, List.dropWhile_cons, h2]
    | false =>
      have h1 : eventLoop k i (some s) (false :: t) =
          (if k ≤ i - s then [(s, i - 1)] else []) ++ eventLoop k (i + 1) none t := rfl
      have h2 : eventLoop k i none (false :: t) = eventLoop k (i + 1) none t := rfl
      rw [h1]
      simp only [List.takeWhile_cons, List.dropWhile_cons]
      simp [h2]

/-- The scan loop of `heavy_rain_events`, started in the not-in-event
state, emits exactly the maximal `true` runs of the flag sequence whose
length reaches `min_consec_days`. -/
theorem eventLoop_eq_filter_trueRuns (k : Nat) (l : List Bool) (i : Nat) :
    eventLoop k i none l =
      (trueRuns i l).filter (fun p => decide (k ≤ p.2 + 1 - p.1)) := by
  have main : ∀ (n : Nat) (l : List Bool), l.length ≤ n → ∀ i : Nat,
      eventLoop k i none l =
        (trueRuns i l).filter (fun p => decide (k ≤ p.2 + 1 - p.1)) := by
    intro n
    induction n with
    | zero =>
      intro l hl i
      have : l = [] := List.eq_nil_of_length_eq_zero (Nat.le_zero.mp hl)
      subst this
      simp [eventLoop, trueRuns]
    | succ n ihn =>
      intro l hl i
      match l with
      | [] => simp [eventLoop, trueRuns]
      | false :: t =>
        have h1 : eventLoop k i none (false :: t) = eventLoop k (i + 1) none t := rfl
        have h2 : trueRuns i (false :: t) = trueRuns (i + 1) t := by
          rw [trueRuns]
        rw [h1, h2, ihn t (by simpa using Nat.lt_succ_iff.mp (Nat.lt_of_lt_of_le (Nat.lt_succ_of_le (Nat.le_refl _)) hl)) (i + 1)]
      | true :: t =>
        have h1 : eventLoop k i none (true :: t) = eventLoop k (i + 1) (some i) t := rfl
        have h2 : trueRuns i (true :: t) =
            (i, i + (t.takeWhile (fun b => b)).length) ::
              trueRuns (i + (t.takeWhile (fun b => b)).length + 1)
                (t.dropWhile (fun b => b)) := by
          rw [trueRuns]
        rw [h1, eventLoop_some k t (i + 1) i (Nat.lt_succ_self i), h2]
        have hdrop : (t.dropWhile (fun b => b)).length ≤ n := by
          have := (List.dropWhile_sublist (p := fun b => b) (l := t)).length_le
          simp only [List.length_cons] at hl
          omega
        rw [ihn (t.dropWhile (fun b => b)) hdrop (i + 1 + (t.takeWhile (fun b => b)).length)]
        rw [List.filter_cons]
        have harith1 : i + 1 + (t.takeWhile (fun b => b)).length - i
            = (i + (t.takeWhile (fun b => b)).length) + 1 - i := by omega
        have harith2 : i + 1 + (t.takeWhile (fun b => b)).length - 1
            = i + (t.takeWhile (fun b => b)).length := by omega
        have harith3 : i + 1 + (t.takeWhile (fun b => b)).length
            = i + (t.takeWhile (fun b => b)).length + 1 := by omega
        rw [harith1, harith2, harith3]
        by_cases hk : k ≤ i + (t.takeWhile (fun b => b)).length + 1 - i
        · simp [hk]
        · simp [hk]
  exact main l.length l (Nat.le_refl _) i

/-! ## Claim C8: invalid window endpoints -/

/-- C8: for every (month, day) pair that is not a valid calendar date in
the fixed non-leap reference year 2001 (Feb 30, day 0, and in particular
Feb 29), `compute_doy` fails — the `InvalidDateError` of the spec's
taxonomy surfaces as the `None` result that every caller checks for —
rather than returning a day-of-year value. -/
theorem compute_doy_invalid_fails (month day : Nat)
    (h : validDate 2001 month day = false) :
    compute_doy month day = none := by
  simp [compute_doy, h]

/-- Witness for `compute_doy_invalid_fails` at Feb 29, which the
non-leap reference year rejects. -/
theorem compute_doy_invalid_fails_witness :
    validDate 2001 2 29 = false ∧ compute_doy 2 29 = none :=
  ⟨by decide, compute_doy_invalid_fails 2 29 (by decide)⟩

/-! ## Claim C1: wrapping seasonal window -/

/-- C1 (spec-modelled): for every record table and every seasonal window
whose start day-of-year is strictly greater than its end day-of-year,
the seasonal filter keeps exactly the records whose day-of-year is
`≥ start_doy` or `≤ end_doy`, inclusive at both ends, uniformly over
all years present in the data. -/
theorem seasonal_window_wrap_keeps_or (records : List SRec)
    (sm sd em ed s e : Nat)
    (hs : compute_doy sm sd = some s) (he : compute_doy em ed = some e)
    (hw : e < s) :
    ∃ l, apply_seasonal_window records sm sd em ed = some l ∧
      ∀ r : SRec, r ∈ l ↔ r ∈ records ∧ (s ≤ recDoy r ∨ recDoy r ≤ e) := by
  have hres : apply_seasonal_window records sm sd em ed
      = some (records.filter (fun r => decide (s ≤ recDoy r ∨ recDoy r ≤ e))) := by
    unfold apply_seasonal_window
    rw [hs, he]
    simp [hw]
  refine ⟨_, hres, fun r => ?_⟩
  simp [List.mem_filter]

/-- Witness for `seasonal_window_wrap_keeps_or` on the wrapping window
Nov 15 - Feb 15 (day-of-years 319 and 46) over `recsC1`. -/
theorem seasonal_window_wrap_keeps_or_witness :
    compute_doy 11 15 = some 319 ∧ compute_doy 2 15 = some 46 ∧ 46 < 319 ∧
    ∃ l, apply_seasonal_window recsC1 11 15 2 15 = some l ∧
      ∀ r : SRec, r ∈ l ↔ r ∈ recsC1 ∧ (319 ≤ recDoy r ∨ recDoy r ≤ 46) :=
  ⟨by decide, by decide, by decide,
   seasonal_window_wrap_keeps_or recsC1 11 15 2 15 319 46
     (by decide) (by decide) (by decide)⟩

/-! ## Claim C2: the frost indicator -/

/-- C2 (spec-modelled): over every record table carrying the fields
`tmin_C`, `dew2m_mean_C` and `wind_mean_ms`, and every frost parameter
triple, the detector's frost mask exists, and a record's frost
indicator is true exactly when `tmin_C ≤ frost_temp_C` and
`wind_mean_ms ≤ frost_max_wind_ms` and
`|tmin_C - dew2m_mean_C| ≤ frost_max_dew_delta_C`, every comparison
inclusive. -/
theorem frost_mask_iff (df : AFrame) (p : EventParams)
    (h1 : "tmin_C" ∈ df.cols) (h2 : "dew2m_mean_C" ∈ df.cols)
    (h3 : "wind_mean_ms" ∈ df.cols) :
    List.lookup ("frost") (compute_event_masks df p)
      = some (df.rows.map (frostMaskRow p)) ∧
    ∀ (r : ARow) (tn dw wd : ℚ),
      r.vals ("tmin_C") = some tn → r.vals ("dew2m_mean_C") = some dw →
      r.vals ("wind_mean_ms") = some wd →
      (frostMaskRow p r = true ↔
        (tn ≤ p.frost_temp_C ∧ wd ≤ p.frost_max_wind_ms ∧
         |tn - dw| ≤ p.frost_max_dew_delta_C)) := by
  constructor
  · rw [compute_event_masks, if_pos ⟨h1, h2, h3⟩]
    simp [List.lookup]
  · intro r tn dw wd htn hdw hwd
    rw [frostMaskRow, htn, hdw, hwd]
    simp [and_assoc]

/-- Witness for `frost_mask_iff`: spec scenario C, `tmin_C = -1`,
`wind_mean_ms = 2`, `dew2m_mean_C = -2` against thresholds (0, 3, 2)
gives frost, and the mask for `dfC2` is the singleton `[true]`. -/
theorem frost_mask_iff_witness :
    ("tmin_C" ∈ dfC2.cols ∧ "dew2m_mean_C" ∈ dfC2.cols ∧
     "wind_mean_ms" ∈ dfC2.cols) ∧
    frostMaskRow paramsC2 rowC2 = true ∧
    List.lookup ("frost") (compute_event_masks dfC2 paramsC2)
      = some (dfC2.rows.map (frostMaskRow paramsC2)) := by
  have h := frost_mask_iff dfC2 paramsC2 (by decide) (by decide) (by decide)
  refine ⟨⟨by decide, by decide, by decide⟩, ?_, h.1⟩
  refine (h.2 rowC2 (-1) (-2) 2 rfl rfl rfl).mpr ?_
  refine ⟨by norm_num [paramsC2], by norm_num [paramsC2], ?_⟩
  rw [abs_le]
  constructor <;> norm_num [paramsC2]

/-! ## Claim C3: unparseable dates at load time -/

/-- C3 counterexample: a row whose date cannot be parsed is NOT dropped
by the loader's date coercion — it survives, with a NaT (`none`) date,
so the returned table has a row whose date parses to no valid calendar
date. -/
theorem loader_keeps_unparseable_row :
    (coerce_date_column rawBadC3).length = 1 ∧
    (coerce_date_column rawBadC3).map LoadedRow.date = [none] :=
  ⟨rfl, rfl⟩

/-- C3 amended: the loader coerces the date column row-by-row — every
row is kept (same length, same payloads, in order), each resulting date
is exactly the parse of the raw cell, an unparseable cell becomes NaT
(`none`) and is never substituted or zero-filled, and every non-NaT
date is a valid calendar date. -/
theorem loader_coerces_dates (rows : List RawRow) :
    (coerce_date_column rows).length = rows.length ∧
    (coerce_date_column rows).map LoadedRow.date
      = rows.map (fun r => to_datetime_coerce r.dateCell) ∧
    (coerce_date_column rows).map LoadedRow.payload = rows.map RawRow.payload ∧
    ∀ r ∈ coerce_date_column rows, ∀ d : Date, r.date = some d →
      validDate d.year d.month d.day = true := by
  refine ⟨by simp [coerce_date_column], by simp [coerce_date_column],
          by simp [coerce_date_column], ?_⟩
  intro r hr d hd
  rw [coerce_date_column] at hr
  obtain ⟨rr, _, rfl⟩ := List.mem_map.mp hr
  replace hd : to_datetime_coerce rr.dateCell = some d := hd
  cases hcell : rr.dateCell with
  | ymd y m dd =>
    rw [hcell] at hd
    rw [to_datetime_coerce] at hd
    by_cases hv : validDate y m dd
    · rw [if_pos hv] at hd
      cases hd
      exact hv
    · rw [if_neg hv] at hd
      cases hd
  | unparseable =>
    rw [hcell, to_datetime_coerce] at hd
    cases hd

/-- Witness for `loader_coerces_dates` on `rawRowsC3`: the well-formed
row comes through with its parsed, valid date. -/
theorem loader_coerces_dates_witness :
    ((⟨some ⟨2021, 2, 10⟩, 1⟩ : LoadedRow) ∈ coerce_date_column rawRowsC3) ∧
    validDate 2021 2 10 = true :=
  ⟨by decide,
   (loader_coerces_dates rawRowsC3).2.2.2 ⟨some ⟨2021, 2, 10⟩, 1⟩
     (by decide) ⟨2021, 2, 10⟩ rfl⟩

/-! ## Claim C4: missing columns in the event computations -/

/-- C4 counterexample: `frost_stats` on a table without `tmin_C` raises
(the embedded `ValueError`), rather than omitting the event from its
result. -/
theorem frost_stats_missing_column_raises :
    frost_stats dfDateOnly ("tmin_C") 0
      = Except.error ("Coluna tmin_C não existe no DataFrame.") := rfl

/-- C4 amended: only `count_extreme_events` omits events whose variable
column is absent (every emitted row names a present column, and nothing
is raised); `frost_stats` and `heavy_rain_events` instead raise a
`ValueError` naming the missing column. -/
theorem missing_column_behaviour (df : AFrame) (thr : List (String × Cond))
    (tmin_col precip_col : String) (tC t_mm : ℚ) (k : Nat) :
    (∀ e ∈ count_extreme_events df thr, e.varName ∈ df.cols) ∧
    (tmin_col ∉ df.cols →
      frost_stats df tmin_col tC
        = Except.error (s!"Coluna {tmin_col} não existe no DataFrame.")) ∧
    (precip_col ∉ df.cols →
      heavy_rain_events df precip_col t_mm k
        = Except.error (s!"Coluna {precip_col} não existe no DataFrame.")) := by
  refine ⟨?_, ?_, ?_⟩
  · intro e he
    rw [count_extreme_events] at he
    obtain ⟨vc, hvc, hcond⟩ := List.mem_filterMap.mp he
    by_cases hin : vc.1 ∈ df.cols
    · rw [if_pos hin] at hcond
      cases hcond
      exact hin
    · rw [if_neg hin] at hcond
      cases hcond
  · intro hmiss
    rw [frost_stats, if_neg hmiss]
  · intro hmiss
    rw [heavy_rain_events, if_neg hmiss]

/-- Witness for `missing_column_behaviour` on the column-less frame
`dfDateOnly`: both requested extreme events are skipped without error,
while `frost_stats` and `heavy_rain_events` error out. -/
theorem missing_column_behaviour_witness :
    ("tmin_C" ∉ dfDateOnly.cols) ∧ ("precip_mm" ∉ dfDateOnly.cols) ∧
    count_extreme_events dfDateOnly thrC4 = [] ∧
    frost_stats dfDateOnly ("tmin_C") 0
      = Except.error ("Coluna tmin_C não existe no DataFrame.") ∧
    heavy_rain_events dfDateOnly ("precip_mm") 20 1
      = Except.error ("Coluna precip_mm não existe no DataFrame.") := by
  have h := missing_column_behaviour dfDateOnly thrC4 ("tmin_C") ("precip_mm") 0 20 1
  exact ⟨by decide, by decide, by decide, h.2.1 (by decide), h.2.2 (by decide)⟩

/-! ## Claim C5: frequency/severity row bounds -/

/-- C5: under masks aligned with the table, the summary emits no row at
all for an empty table (so the percentage division never runs), and
every emitted row satisfies `n_days ≤ total_days` and
`0 ≤ freq_pct ≤ 100`; when `n_days = 0` every severity statistic is
null — either the column entry is `none` (absent column) or the
all-`None` stats dict — never a fabricated 0.0. -/
theorem event_stats_rows_bounded (df : AFrame)
    (masks : List (String × Option (List Bool)))
    (hlen : ∀ kk m, (kk, some m) ∈ masks → m.length = df.rows.length) :
    (df.rows.length = 0 → build_event_stats_for_report df masks = []) ∧
    ∀ kk st, (kk, st) ∈ build_event_stats_for_report df masks →
      st.days ≤ df.rows.length ∧ 0 ≤ st.prob_pct ∧ st.prob_pct ≤ 100 ∧
      (st.days = 0 →
        (st.precip_mm = none ∨ st.precip_mm = some none) ∧
        (st.tmin_C = none ∨ st.tmin_C = some none) ∧
        (st.tmax_C = none ∨ st.tmax_C = some none) ∧
        (st.tmean_C = none ∨ st.tmean_C = some none) ∧
        (st.dew2m_mean_C = none ∨ st.dew2m_mean_C = some none) ∧
        (st.wind_mean_ms = none ∨ st.wind_mean_ms = some none) ∧
        (st.gust_max_ms = none ∨ st.gust_max_ms = some none)) := by
  constructor
  · intro h
    rw [build_event_stats_for_report, if_pos h]
  · intro kk st hmem
    by_cases htot : df.rows.length = 0
    · rw [build_event_stats_for_report, if_pos htot] at hmem
      cases hmem
    · rw [build_event_stats_for_report, if_neg htot] at hmem
      obtain ⟨⟨kk', mo⟩, hkm, heq⟩ := List.mem_map.mp hmem
      injection heq with hk1 hk2
      subst hk2
      have hpos : 0 < df.rows.length := Nat.pos_of_ne_zero htot
      have hdle : daysOf mo ≤ df.rows.length := by
        cases mo with
        | none => simp [daysOf]
        | some m =>
          exact le_of_le_of_eq (List.count_le_length true m) (hlen kk' m hkm)
      have hprob : (eventStatsFor df mo).prob_pct
          = 100 * ((daysOf mo : ℚ)) / ((df.rows.length : ℚ)) := by
        show (if 0 < df.rows.length then
            100 * ((daysOf mo : ℚ)) / ((df.rows.length : ℚ)) else 0) = _
        rw [if_pos hpos]
      refine ⟨hdle, ?_, ?_, ?_⟩
      · rw [hprob]
        positivity
      · rw [hprob, div_le_iff₀ (by exact_mod_cast hpos)]
        have hc : ((daysOf mo : ℚ)) ≤ ((df.rows.length : ℚ)) := Nat.cast_le.mpr hdle
        nlinarith
      · intro hz
        replace hz : daysOf mo = 0 := hz
        have hsub : subOf df.rows mo = [] := by
          cases mo with
          | none => rfl
          | some m =>
            replace hz : m.count true = 0 := hz
            show selectRows df.rows m = []
            rw [selectRows]
            apply List.filterMap_eq_nil_iff.mpr
            intro rb hrb
            have hbm := (List.of_mem_zip hrb).2
            have hbf : rb.2 = false := by
              cases hb2 : rb.2 with
              | true =>
                rw [hb2] at hbm
                exact absurd hbm (List.count_eq_zero.mp hz)
              | false => rfl
            simp [hbf]
        have hcol : ∀ c : String,
            colStats df ([] : List ARow) c = none ∨
            colStats df ([] : List ARow) c = some none := by
          intro c
          rw [colStats]
          split
          · right
            rfl
          · left
            rfl
        have hfield : ∀ c : String,
            colStats df (subOf df.rows mo) c = none ∨
            colStats df (subOf df.rows mo) c = some none := by
          intro c
          rw [hsub]
          exact hcol c
        exact ⟨hfield _, hfield _, hfield _, hfield _, hfield _, hfield _, hfield _⟩

/-- Witness for `event_stats_rows_bounded` on `dfC5` / `masksC5`: the
`None`-mask event appears with zero days, zero percentage and all-null
severity. -/
theorem event_stats_rows_bounded_witness :
    ("frost", stC5) ∈ build_event_stats_for_report dfC5 masksC5 ∧
    (stC5.days ≤ dfC5.rows.length ∧ 0 ≤ stC5.prob_pct ∧ stC5.prob_pct ≤ 100 ∧
      (stC5.days = 0 →
        (stC5.precip_mm = none ∨ stC5.precip_mm = some none) ∧
        (stC5.tmin_C = none ∨ stC5.tmin_C = some none) ∧
        (stC5.tmax_C = none ∨ stC5.tmax_C = some none) ∧
        (stC5.tmean_C = none ∨ stC5.tmean_C = some none) ∧
        (stC5.dew2m_mean_C = none ∨ stC5.dew2m_mean_C = some none) ∧
        (stC5.wind_mean_ms = none ∨ stC5.wind_mean_ms = some none) ∧
        (stC5.gust_max_ms = none ∨ stC5.gust_max_ms = some none))) := by
  have hmem : ("frost", stC5) ∈ build_event_stats_for_report dfC5 masksC5 := by
    have : build_event_stats_for_report dfC5 masksC5 = [("frost", stC5)] := by
      rw [build_event_stats_for_report]
      rw [if_neg (by simp [dfC5])]
      simp only [masksC5, List.map_cons, List.map_nil]
      have hst : eventStatsFor dfC5 none = stC5 := by
        rw [eventStatsFor]
        simp [daysOf, subOf, colStats, dfC5, stC5, safe_stats]
      rw [hst]
    rw [this]
    exact List.mem_singleton.mpr rfl
  exact ⟨hmem,
    (event_stats_rows_bounded dfC5 masksC5 (by simp [masksC5])).2
      ("frost") stC5 hmem⟩

/-! ## Claim C6: report assembly on an empty table -/

/-- C6 counterexample: on an empty record table the event-stats
assembly returns the empty mapping — the offered `frost` mask gets no
entry at all, so the payload is not "one entry per event type". -/
theorem empty_table_stats_missing_keys :
    ("frost", some ([] : List Bool)) ∈ masksC6 ∧
    build_event_stats_for_report dfC6 masksC6 = [] ∧
    List.lookup ("frost") (build_event_stats_for_report dfC6 masksC6) = none :=
  ⟨by decide, rfl, rfl⟩

/-- C6 amended: on an empty record table the event-stats assembly
returns the empty mapping (every event key absent) — by construction
and without raising; the PDF path then takes its no-data branch. -/
theorem empty_table_stats_empty (df : AFrame)
    (masks : List (String × Option (List Bool))) (h : df.rows = []) :
    build_event_stats_for_report df masks = [] := by
  rw [build_event_stats_for_report, if_pos (by simp [h])]

/-- Witness for `empty_table_stats_empty` on `dfC6` / `masksC6`. -/
theorem empty_table_stats_empty_witness :
    dfC6.rows = [] ∧ build_event_stats_for_report dfC6 masksC6 = [] :=
  ⟨rfl, empty_table_stats_empty dfC6 masksC6 rfl⟩

/-! ## Claim C7: yearly aggregation and zero years -/

/-- C7 counterexample: the yearly aggregation emits `(2021, 0)` for
`dfC7` and `maskC7` although 2021 has no true day — a year with zero
occurrences does appear in the raw result. -/
theorem yearly_zero_year_emitted :
    yearly_counts dfC7 maskC7 = [(2020, 1), (2021, 0)] ∧
    (2021, 0) ∈ yearly_counts dfC7 maskC7 ∧
    yearCount dfC7 maskC7 2021 = 0 :=
  ⟨by decide, by decide, by decide⟩

/-- C7 amended: over a nonempty table with a `date` column, the yearly
aggregation emits exactly one row for every year in the contiguous
range from the table's smallest to its largest year — zero-filling
years without occurrences — and each row carries that year's masked-day
count. -/
theorem yearly_counts_zero_filled (df : AFrame) (mask : Option (List Bool))
    (hd : "date" ∈ df.cols) (hne : df.rows ≠ []) :
    (∀ y : Nat, minYear df ≤ y → y ≤ maxYear df →
      (y, yearCount df mask y) ∈ yearly_counts df mask) ∧
    (∀ p : Nat × Nat, p ∈ yearly_counts df mask →
      minYear df ≤ p.1 ∧ p.1 ≤ maxYear df ∧ p.2 = yearCount df mask p.1) := by
  have hres : yearly_counts df mask
      = (List.range' (minYear df) (maxYear df + 1 - minYear df)).map
          (fun yr => (yr, yearCount df mask yr)) := by
    rw [yearly_counts, if_pos hd, if_neg (by simp [List.isEmpty_iff, hne])]
  constructor
  · intro y h1 h2
    rw [hres]
    exact List.mem_map.mpr ⟨y, List.mem_range'_1.mpr ⟨h1, by omega⟩, rfl⟩
  · intro p hp
    rw [hres] at hp
    obtain ⟨y, hy, rfl⟩ := List.mem_map.mp hp
    have hb := List.mem_range'_1.mp hy
    exact ⟨hb.1, by omega, rfl⟩

/-- Witness for `yearly_counts_zero_filled` on `dfC7` / `maskC7`: the
zero-occurrence year 2021 is emitted with count 0. -/
theorem yearly_counts_zero_filled_witness :
    ("date" ∈ dfC7.cols) ∧ dfC7.rows ≠ [] ∧
    (2021, yearCount dfC7 maskC7 2021) ∈ yearly_counts dfC7 maskC7 ∧
    yearCount dfC7 maskC7 2021 = 0 := by
  have hne : dfC7.rows ≠ [] := by simp [dfC7]
  have h := yearly_counts_zero_filled dfC7 maskC7 (by decide) hne
  exact ⟨by decide, hne, h.1 2021 (by decide) (by decide), by decide⟩

/-! ## Claim C9: heavy-rain run detection -/

/-- C9: over any table carrying the precipitation column,
`heavy_rain_events` analyses a date-ordered arrangement of the records
(a sorted permutation of the rows) and reports `n_events` equal to the
number of maximal runs of consecutive positions with precipitation
`≥ threshold` (inclusive, trailing run included) whose length reaches
`min_consec_days`; each event carries the dates of its run's first and
last record and the run's length. -/
theorem heavy_rain_counts_maximal_runs (df : AFrame) (pcol : String)
    (t : ℚ) (k : Nat) (h : pcol ∈ df.cols) :
    ∃ out : RainOut,
      heavy_rain_events df pcol t k = Except.ok out ∧
      List.Perm (sortByDate df.rows) df.rows ∧
      (sortByDate df.rows).Sorted rowLe ∧
      out.n_events =
        ((trueRuns 0 ((sortByDate df.rows).map
            (fun r => isHeavyAt t (r.vals pcol)))).filter
          (fun p => decide (k ≤ p.2 + 1 - p.1))).length ∧
      out.events =
        ((trueRuns 0 ((sortByDate df.rows).map
            (fun r => isHeavyAt t (r.vals pcol)))).filter
          (fun p => decide (k ≤ p.2 + 1 - p.1))).map
          (spanOf (sortByDate df.rows)) := by
  refine ⟨{ threshold_mm := t, min_consec_days := k,
            n_events := ((eventLoop k 0 none ((sortByDate df.rows).map
                (fun r => isHeavyAt t (r.vals pcol)))).map
                  (spanOf (sortByDate df.rows))).length,
            events := (eventLoop k 0 none ((sortByDate df.rows).map
                (fun r => isHeavyAt t (r.vals pcol)))).map
                  (spanOf (sortByDate df.rows)) },
          ?_, List.perm_insertionSort rowLe df.rows,
          List.sorted_insertionSort rowLe df.rows, ?_, ?_⟩
  · rw [heavy_rain_events, if_pos h]
  · show ((eventLoop k 0 none ((sortByDate df.rows).map
        (fun r => isHeavyAt t (r.vals pcol)))).map
          (spanOf (sortByDate df.rows))).length = _
    rw [eventLoop_eq_filter_trueRuns, List.length_map]
  · show (eventLoop k 0 none ((sortByDate df.rows).map
        (fun r => isHeavyAt t (r.vals pcol)))).map
          (spanOf (sortByDate df.rows)) = _
    rw [eventLoop_eq_filter_trueRuns]

/-- Witness for `heavy_rain_counts_maximal_runs` on `dfC9`
(precipitation 25, 0, 30, 30 after date sorting, threshold 20, minimum
run 2): exactly one event, Jan 3 - Jan 4 2020, length 2; the
single-day 25 run is discarded. -/
theorem heavy_rain_counts_maximal_runs_witness :
    ("precip_mm" ∈ dfC9.cols) ∧
    heavy_rain_events dfC9 ("precip_mm") 20 2
      = Except.ok ⟨20, 2, 1, [⟨⟨2020, 1, 3⟩, ⟨2020, 1, 4⟩, 2⟩]⟩ ∧
    (∃ out : RainOut,
      heavy_rain_events dfC9 ("precip_mm") 20 2 = Except.ok out ∧
      List.Perm (sortByDate dfC9.rows) dfC9.rows ∧
      (sortByDate dfC9.rows).Sorted rowLe ∧
      out.n_events =
        ((trueRuns 0 ((sortByDate dfC9.rows).map
            (fun r => isHeavyAt 20 (r.vals ("precip_mm"))))).filter
          (fun p => decide (2 ≤ p.2 + 1 - p.1))).length ∧
      out.events =
        ((trueRuns 0 ((sortByDate dfC9.rows).map
            (fun r => isHeavyAt 20 (r.vals ("precip_mm"))))).filter
          (fun p => decide (2 ≤ p.2 + 1 - p.1))).map
          (spanOf (sortByDate dfC9.rows))) :=
  ⟨by decide, rfl,
   heavy_rain_counts_maximal_runs dfC9 ("precip_mm") 20 2 (by decide)⟩

/-! ## Claim C10: locations parsing and the generator's error path -/

/-- C10: when no line of the locations text parses as `Name, lon, lat`
with numeric coordinates (in particular for the empty text),
`build_gee_code_daily` returns a string beginning with `// ERRO`
instead of raising; and parsing is line-local — `parse_locations` is
the `filterMap` of the per-line parser, so a blank, malformed or
non-numeric line is skipped without affecting the other lines. -/
theorem gee_daily_error_comment (sy ey sm sd em ed : Int)
    (ls : List (List Char))
    (h : ∀ line ∈ ls, parseLocLine line = none) :
    parse_locations ls = [] ∧
    List.isPrefixOf (("// ERRO").data)
      ((build_gee_code_daily sy ey sm sd em ed ls).data) = true ∧
    ∀ ls2 : List (List Char), parse_locations ls2 = ls2.filterMap parseLocLine := by
  have hfm : ∀ ls2 : List (List Char),
      parse_locations ls2 = ls2.filterMap parseLocLine := by
    intro ls2
    induction ls2 with
    | nil => rfl
    | cons a tl ih =>
      cases ha : parseLocLine a <;>
        simp [parse_locations, List.filterMap_cons, ha, ih]
  have hnil : parse_locations ls = [] := by
    rw [hfm]
    exact List.filterMap_eq_nil_iff.mpr h
  refine ⟨hnil, ?_, hfm⟩
  have hout : build_gee_code_daily sy ey sm sd em ed ls = erroMsg := by
    rw [build_gee_code_daily]
    rw [hnil]
  rw [hout]
  decide

/-- Witness for `gee_daily_error_comment` on a text of one blank line:
nothing parses and the generated output opens with the `// ERRO`
comment. -/
theorem gee_daily_error_comment_witness :
    parse_locations [[]] = [] ∧
    List.isPrefixOf (("// ERRO").data)
      ((build_gee_code_daily 1995 2024 1 1 12 31 [[]]).data) = true := by
  have h : ∀ line ∈ [([] : List Char)], parseLocLine line = none := by
    intro line hl
    rw [List.mem_singleton] at hl
    subst hl
    rfl
  have hg := gee_daily_error_comment 1995 2024 1 1 12 31 [[]] h
  exact ⟨hg.1, hg.2.1⟩

end ERA5Land
